import Mathlib

/-!
Verification of the Monster Rancher training optimiser (`main.py`).

The program reads a starting-stats table and one stat-gain table per rank,
builds an integer linear program (one non-negative integer variable per
(rank, week) pair, objective: minimise the total number of weeks, with
rank-coverage and stat-maximisation constraints), solves it with an external
MILP solver, and prints the resulting training programme.

We embed the data model, the model builder (`youngest_max_stats_monster`,
lines 109-138), and the post-solve control flow (lines 140-160 together with
`print_output` / `print_training_programme`) as pure Lean functions, and
prove or refute the specification claims about them.
-/

namespace MonsterRancher

/-- A catalogue of training data, as held by a constructed `MonsterTraining`
object: the list of stat (column) names, the ordered list of rank names, the
per-rank tables of stat gains (`training_stats_by_rank`: one row per week,
each row maps a stat name to the integer gain), and the starting stats
(row 0 of the initial-stats table, as a map from stat name to value). -/
structure Catalogue where
  statNames : List String
  rankNames : List String
  trainingStats : String → List (String → Int)
  initialStats : String → Int

/-- Number of rows (weeks) in the gain table of a rank:
`self.training_stats_by_rank[rank].shape[0]` (line 51). -/
def weeksInRank (c : Catalogue) (rank : String) : Nat :=
  (c.trainingStats rank).length

/-- Gain of a stat in a given (rank, week):
`self.training_stats_by_rank[rank].at[week, stat]` (lines 55-56). -/
def statGainAt (c : Catalogue) (rank : String) (week : Nat) (stat : String) : Int :=
  match (c.trainingStats rank)[week]? with
  | some row => row stat
  | none => 0

/-- The ordered list of (rank, week) labels of the decision variables.
The source builds `stat_gains[stat]` by iterating over `rank_names` in order
and, within a rank, over weeks `0 .. weeks_in_rank - 1` (lines 50-56), and
then takes the keys of the first stat's dictionary with `gp.multidict`
(lines 34-35); insertion order of a Python dict makes this exactly
rank-major, week-minor order. -/
def weekLabels (c : Catalogue) : List (String × Nat) :=
  (c.rankNames.map (fun r => (List.range (weeksInRank c r)).map (fun w => (r, w)))).flatten

/-- One linear inequality `Σ coeff · var ≥ rhs` of the Gurobi model, with the
name it is added under. -/
structure LinConstr where
  name : String
  coeffs : List ((String × Nat) × Int)
  rhs : Int
deriving DecidableEq

/-- The integer program assembled by `youngest_max_stats_monster`
(lines 112-132): one integer decision variable per week label (Gurobi default
bounds: lower 0, upper infinity), objective `minimise Σ vars`, and the listed
constraints in the order they are added. -/
structure ScheduleModel where
  varLabels : List (String × Nat)
  constraints : List LinConstr
deriving DecidableEq

/-- The rank-coverage constraint `week_counts.sum(rank, chr 42) >= 1`
added for a rank (lines 126-127): coefficient 1 on every variable of that
rank, right-hand side 1. -/
def rankConstraint (c : Catalogue) (rank : String) : LinConstr :=
  { name := "rank_constraints"
    coeffs := ((weekLabels c).filter (fun l => l.1 == rank)).map (fun l => (l, (1 : Int)))
    rhs := 1 }

/-- The max-stats constraint `week_counts.prod(stat_gains[stat]) >= 999 -
initial_stats.at[0, stat]` added for a stat (lines 131-132). -/
def statConstraint (c : Catalogue) (stat : String) : LinConstr :=
  { name := "max_stats_constraints"
    coeffs := (weekLabels c).map (fun l => (l, statGainAt c l.1 l.2 stat))
    rhs := 999 - c.initialStats stat }

/-- The model built by lines 112-132: variables for every week label, rank
constraints for every rank except the last (`rank_names[:len(rank_names)-1]`,
line 127), then max-stats constraints for every stat (lines 131-132). -/
def buildModel (c : Catalogue) : ScheduleModel :=
  { varLabels := weekLabels c
    constraints :=
      (c.rankNames.take (c.rankNames.length - 1)).map (rankConstraint c)
        ++ c.statNames.map (statConstraint c) }

/-- Value of the left-hand side of a constraint under an assignment of
non-negative integer counts to the variables. -/
def lhsVal (x : String × Nat → Nat) (coeffs : List ((String × Nat) × Int)) : Int :=
  (coeffs.map (fun p => p.2 * (x p.1 : Int))).sum

/-- An assignment satisfies a constraint when the left-hand side is at least
the right-hand side. -/
def satisfies (x : String × Nat → Nat) (con : LinConstr) : Prop :=
  con.rhs ≤ lhsVal x con.coeffs

instance (x : String × Nat → Nat) (con : LinConstr) : Decidable (satisfies x con) :=
  inferInstanceAs (Decidable (_ ≤ _))

/-- An assignment is feasible for the model when it satisfies every
constraint. Non-negativity is built into the `Nat` codomain, matching
Gurobi's default variable lower bound of 0 (line 134). -/
def feasible (m : ScheduleModel) (x : String × Nat → Nat) : Prop :=
  ∀ con ∈ m.constraints, satisfies x con

instance (m : ScheduleModel) (x : String × Nat → Nat) : Decidable (feasible m x) :=
  List.decidableBAll _ _

/-- The objective `week_counts.sum()` (line 122): the total count over all
decision variables. -/
def objectiveVal (m : ScheduleModel) (x : String × Nat → Nat) : Nat :=
  (m.varLabels.map x).sum

/-- Result returned by the external solver after `self.model.optimize()`:
either status `GRB.OPTIMAL` together with the integer counts of the solution,
or any other status (line 141 only distinguishes these two cases). -/
inductive SolverResult where
  | optimal (counts : String × Nat → Nat)
  | noOptimal
deriving Inhabited

/-- The per-rank section printed by `print_training_programme` (lines 86-107):
the rank name, the total weeks trained in the rank
(`count.sum(rank, chr 42)`, line 93), and for each week label of the rank
with positive count, the week id, its count, and the stat-gain description
(lines 98-107). -/
structure RankReport where
  rank : String
  totalWeeks : Nat
  weeks : List (Nat × Nat × List (String × Int))
deriving DecidableEq

/-- The structured content of `print_training_programme` for a solution. -/
def trainingProgramme (c : Catalogue) (x : String × Nat → Nat) : List RankReport :=
  c.rankNames.map (fun rank =>
    { rank := rank
      totalWeeks := (((weekLabels c).filter (fun l => l.1 == rank)).map x).sum
      weeks := ((weekLabels c).filter (fun l => l.1 == rank)).filterMap (fun l =>
        if 0 < x l then
          some (l.2, x l, c.statNames.map (fun s => (s, statGainAt c l.1 l.2 s)))
        else none) })

/-- Observable outcome of one call of `youngest_max_stats_monster` after the
solver returns (lines 140-160):
* `reported`: the run reaches the end of `print_output`, printing the
  objective value (line 81) and the full programme;
* `caughtAttributeError`: an `AttributeError` was raised and caught
  (lines 159-160); `printedBefore` lists the messages printed before it, and
  the final printed line is the literal handler message;
* `assertionError`: the `assert` on line 146 failed — `AssertionError` is not
  among the caught exception types, so the call terminates abnormally. -/
inductive Outcome where
  | reported (objective : Nat) (programme : List RankReport)
  | caughtAttributeError (printedBefore : List String)
  | assertionError
deriving DecidableEq

/-- Lines 140-160 of `youngest_max_stats_monster`, given the solver result.
When the status is `GRB.OPTIMAL` and `upper_bound > 0`, `self.objective` is
set to the objective value and asserted `<= upper_bound`; the uncaught
`AssertionError` aborts the run when the assert fails. When the status is
optimal but `upper_bound` is 0 (its default), `self.objective` is never
assigned, so the read on line 81 raises `AttributeError`, caught on line 159.
When the status is not optimal, line 149 prints its message and then the same
`AttributeError` follows in `print_output`. -/
def runAfterSolve (c : Catalogue) (upperBound : Nat) (res : SolverResult) : Outcome :=
  match res with
  | .optimal x =>
    if 0 < upperBound then
      if objectiveVal (buildModel c) x ≤ upperBound then
        .reported (objectiveVal (buildModel c) x) (trainingProgramme c x)
      else
        .assertionError
    else
      .caughtAttributeError ["Encountered an attribute error"]
  | .noOptimal =>
    .caughtAttributeError ["\nNo optimal solutions found.", "Encountered an attribute error"]

/-- Modelled from the spec (section 4.3 / 8): the final value an attribute
reaches under a schedule, `startingProfile[a] + Σ (count × gain)`. The source
never computes this; it is stated here to compare the specified reporter
round-trip check with what the code does. -/
def recomputedFinal (c : Catalogue) (x : String × Nat → Nat) (stat : String) : Int :=
  c.initialStats stat + lhsVal x ((weekLabels c).map (fun l => (l, statGainAt c l.1 l.2 stat)))

/-- Modelled from the spec (section 4.3): a builder that fails with
`InfeasibleTarget` when some attribute has required delta greater than 0 but
no action in any tier with positive gain, and otherwise returns the model.
The source has no such check; this definition follows the spec words so the
two builders can be compared. -/
def buildSpec (c : Catalogue) : Except String ScheduleModel :=
  if c.statNames.any (fun stat =>
      decide (0 < 999 - c.initialStats stat) &&
        (weekLabels c).all (fun l => decide (statGainAt c l.1 l.2 stat ≤ 0))) then
    .error "InfeasibleTarget"
  else
    .ok (buildModel c)

/-- The three-tier, one-stat instance of spec section 8: ranks d, b, s, one
action per rank, each granting gain 1 to the single stat, starting value
997. -/
def tinyCat : Catalogue :=
  { statNames := ["stat"]
    rankNames := ["d", "b", "s"]
    trainingStats := fun _ => [fun _ => 1]
    initialStats := fun _ => 997 }

/-- A catalogue whose only stat gains 0 in every week of every rank while
starting at 0: required delta 999, unreachable. -/
def zeroGainCat : Catalogue :=
  { statNames := ["stat"]
    rankNames := ["d", "b", "s"]
    trainingStats := fun _ => [fun _ => 0]
    initialStats := fun _ => 0 }

/-- The tiny catalogue with its stat already at the maximum 999. -/
def maxedCat : Catalogue :=
  { statNames := ["stat"]
    rankNames := ["d", "b", "s"]
    trainingStats := fun _ => [fun _ => 1]
    initialStats := fun _ => 999 }

/-- A feasible schedule for `tinyCat`: one week in d rank and one in b
rank. -/
def tinySchedule : String × Nat → Nat :=
  fun l => if l = ("d", 0) then 1 else if l = ("b", 0) then 1 else 0

/-- The schedule that trains one week in every rank of the tiny catalogue. -/
def threeWeekSchedule : String × Nat → Nat :=
  fun l => if l.2 = 0 then 1 else 0

/-- Membership in the week-label list: a pair `(r, w)` labels a decision
variable exactly when `r` is a declared rank and `w` indexes a row of its
gain table. -/
lemma mem_weekLabels (c : Catalogue) (r : String) (w : Nat) :
    (r, w) ∈ weekLabels c ↔ r ∈ c.rankNames ∧ w < weeksInRank c r := by
  simp only [weekLabels, List.mem_flatten, List.mem_map]
  constructor
  · rintro ⟨_, ⟨r', hr', rfl⟩, hmem⟩
    simp only [List.mem_map, List.mem_range, Prod.mk.injEq] at hmem
    obtain ⟨w', hw', rfl, rfl⟩ := hmem
    exact ⟨hr', hw'⟩
  · rintro ⟨hr, hw⟩
    exact ⟨_, ⟨r, hr, rfl⟩, by simp [List.mem_range, hw]⟩

/-- Distinct rank names give pairwise distinct week labels. -/
lemma nodup_weekLabels (c : Catalogue) (h : c.rankNames.Nodup) :
    (weekLabels c).Nodup := by
  apply List.nodup_flatten.mpr
  constructor
  · intro l hl
    simp only [List.mem_map] at hl
    obtain ⟨r, _, rfl⟩ := hl
    exact (List.nodup_range _).map (fun a b hab => (Prod.mk.injEq _ _ _ _ ▸ hab).2)
  · apply List.pairwise_map.mpr
    apply h.imp
    intro r1 r2 hne
    apply List.disjoint_left.mpr
    intro a ha1 ha2
    simp only [List.mem_map, List.mem_range] at ha1 ha2
    obtain ⟨w1, _, rfl⟩ := ha1
    obtain ⟨w2, _, hw⟩ := ha2
    exact hne ((Prod.mk.injEq _ _ _ _ ▸ hw).1.symm)

/-- The left-hand side of a constraint with non-negative coefficients grows
when each variable count grows. -/
lemma lhsVal_mono {x y : String × Nat → Nat} (hxy : ∀ l, x l ≤ y l)
    {coeffs : List ((String × Nat) × Int)} (hpos : ∀ p ∈ coeffs, 0 ≤ p.2) :
    lhsVal x coeffs ≤ lhsVal y coeffs := by
  apply List.sum_le_sum
  intro p hp
  exact mul_le_mul_of_nonneg_left (by exact_mod_cast hxy p.1) (hpos p hp)

/-- C1: for every attribute in the catalogue's attribute list the built model
contains the attribute-completion constraint `Σ decisionVariable × gain ≥
999 − startingProfile[stat]`, with one coefficient per (rank, week) decision
variable; its presence does not depend on the starting value, so it is
emitted even when the stat already sits at 999 (right-hand side 0). -/
theorem attribute_completion_constraint_present (c : Catalogue) (stat : String)
    (h : stat ∈ c.statNames) :
    statConstraint c stat ∈ (buildModel c).constraints ∧
      (statConstraint c stat).coeffs =
        (weekLabels c).map (fun l => (l, statGainAt c l.1 l.2 stat)) ∧
      (statConstraint c stat).rhs = 999 - c.initialStats stat := by
  refine ⟨?_, rfl, rfl⟩
  exact List.mem_append.mpr (Or.inr (List.mem_map.mpr ⟨stat, h, rfl⟩))

/-- C1 witness: in the catalogue whose only stat already starts at 999, the
attribute-completion constraint is still present, with right-hand side 0. -/
theorem attribute_completion_constraint_present_witness :
    statConstraint maxedCat "stat" ∈ (buildModel maxedCat).constraints ∧
      (statConstraint maxedCat "stat").rhs = 0 :=
  ⟨(attribute_completion_constraint_present maxedCat "stat" (by decide)).1, by decide⟩

/-- C2: the rank-coverage constraints of the built model are exactly one
`Σ decision variables of the rank ≥ 1` constraint per rank except the last
in declared order; the last rank receives none. -/
theorem tier_coverage_constraints (c : Catalogue) :
    (buildModel c).constraints.filter (fun con => con.name == "rank_constraints") =
      c.rankNames.dropLast.map (rankConstraint c) := by
  rw [List.dropLast_eq_take]
  show List.filter _ (_ ++ _) = _
  rw [List.filter_append]
  have h1 : ((c.rankNames.take (c.rankNames.length - 1)).map (rankConstraint c)).filter
      (fun con => con.name == "rank_constraints") =
      (c.rankNames.take (c.rankNames.length - 1)).map (rankConstraint c) := by
    apply List.filter_eq_self.mpr
    intro con hcon
    obtain ⟨r, _, rfl⟩ := List.mem_map.mp hcon
    rfl
  have h2 : (c.statNames.map (statConstraint c)).filter
      (fun con => con.name == "rank_constraints") = [] := by
    apply List.filter_eq_nil_iff.mpr
    intro con hcon hname
    obtain ⟨s, _, rfl⟩ := List.mem_map.mp hcon
    exact Bool.false_ne_true hname
  rw [h1, h2, List.append_nil]

/-- C3: the built model has exactly one integer decision variable per
(rank, week) pair — the labels are pairwise distinct and comprise precisely
the pairs of a declared rank with a valid week index; the objective is the
sum of all decision variables, decomposing rank by rank; and the variables
carry no upper bound — under the data contract of non-negative gains,
raising any counts of a feasible assignment keeps it feasible (the lower
bound 0 is built into the count type). -/
theorem decision_variables_and_objective (c : Catalogue) (hnd : c.rankNames.Nodup) :
    (buildModel c).varLabels.Nodup ∧
    (∀ r w, (r, w) ∈ (buildModel c).varLabels ↔ r ∈ c.rankNames ∧ w < weeksInRank c r) ∧
    (∀ x, objectiveVal (buildModel c) x =
      (c.rankNames.map (fun r =>
        ((List.range (weeksInRank c r)).map (fun w => x (r, w))).sum)).sum) ∧
    (∀ x y : String × Nat → Nat, (∀ l, x l ≤ y l) →
      (∀ r w s, 0 ≤ statGainAt c r w s) →
      feasible (buildModel c) x → feasible (buildModel c) y) := by
  refine ⟨nodup_weekLabels c hnd, fun r w => mem_weekLabels c r w, ?_, ?_⟩
  · intro x
    simp only [objectiveVal, buildModel, weekLabels, List.map_flatten, List.sum_flatten,
      List.map_map, Function.comp_def]
  · intro x y hxy hg hx con hcon
    have hpos : ∀ p ∈ con.coeffs, (0 : Int) ≤ p.2 := by
      rcases List.mem_append.mp hcon with hA | hB
      · obtain ⟨r, _, rfl⟩ := List.mem_map.mp hA
        intro p hp
        obtain ⟨l, _, rfl⟩ := List.mem_map.mp hp
        norm_num
      · obtain ⟨s, _, rfl⟩ := List.mem_map.mp hB
        intro p hp
        obtain ⟨l, _, rfl⟩ := List.mem_map.mp hp
        exact hg l.1 l.2 s
    exact le_trans (hx con hcon) (lhsVal_mono hxy hpos)

/-- C3 witness: the tiny catalogue has distinct rank names, and its built
model has the three distinct variable labels, the rank-wise objective
decomposition, and upward-closed feasibility. -/
theorem decision_variables_and_objective_witness :
    (buildModel tinyCat).varLabels.Nodup :=
  (decision_variables_and_objective tinyCat (by decide)).1

/-- C4: on the three-rank, one-stat instance with starting value 997 and
gain 1 per action, every assignment satisfying the rank-coverage and
max-stats constraints uses at least 2 weeks, and the schedule with one week
each in d and b rank is feasible with objective exactly 2 — so the optimum
is 2. -/
theorem tiny_instance_minimum_is_two :
    (∀ x, feasible (buildModel tinyCat) x → 2 ≤ objectiveVal (buildModel tinyCat) x) ∧
      feasible (buildModel tinyCat) tinySchedule ∧
      objectiveVal (buildModel tinyCat) tinySchedule = 2 := by
  refine ⟨?_, by decide, by decide⟩
  intro x hx
  have hmem : statConstraint tinyCat "stat" ∈ (buildModel tinyCat).constraints := by decide
  have hstat := hx _ hmem
  have hcoef : (statConstraint tinyCat "stat").coeffs =
      [((("d" : String), (0 : Nat)), (1 : Int)), (("b", 0), 1), (("s", 0), 1)] := by decide
  have hrhs : (statConstraint tinyCat "stat").rhs = 2 := by decide
  rw [satisfies, hcoef, hrhs] at hstat
  simp only [lhsVal, List.map_cons, List.map_nil, List.sum_cons, List.sum_nil, one_mul] at hstat
  have hlab : (buildModel tinyCat).varLabels = [("d", 0), ("b", 0), ("s", 0)] := by decide
  have hobj : objectiveVal (buildModel tinyCat) x =
      x ("d", 0) + (x ("b", 0) + (x ("s", 0) + 0)) := by
    rw [objectiveVal, hlab]; rfl
  rw [hobj]
  omega

/-- C4 witness: the two-week schedule certifies the bound of the theorem at a
concrete feasible assignment. -/
theorem tiny_instance_minimum_is_two_witness :
    2 ≤ objectiveVal (buildModel tinyCat) tinySchedule :=
  tiny_instance_minimum_is_two.1 tinySchedule (by decide)

/-- C5 counterexample: on the catalogue whose only stat needs 999 more
points but gains 0 from every action of every rank, the builder specified in
the spec would fail with InfeasibleTarget, yet the source builder
(lines 112-132) completes normally and hands the full model — rank
constraints and the unsatisfiable max-stats constraint included — to the
solver. -/
theorem no_build_time_infeasible_target_check :
    buildSpec zeroGainCat = Except.error "InfeasibleTarget" ∧
      buildModel zeroGainCat =
        { varLabels := [("d", 0), ("b", 0), ("s", 0)]
          constraints := [rankConstraint zeroGainCat "d", rankConstraint zeroGainCat "b",
            statConstraint zeroGainCat "stat"] } :=
  ⟨rfl, by decide⟩

/-- C5 amended: the source performs no build-time InfeasibleTarget check —
`youngest_max_stats_monster` always assembles the complete model. When some
stat in the catalogue has starting value below 999 and zero gain in every
(rank, week), the built model has no feasible assignment at all, so the
infeasibility is only discovered by the solver. -/
theorem unreachable_stat_gives_infeasible_model (c : Catalogue) (stat : String)
    (hmem : stat ∈ c.statNames)
    (hzero : ∀ r w, statGainAt c r w stat = 0)
    (hbelow : c.initialStats stat < 999) :
    ¬ ∃ x, feasible (buildModel c) x := by
  rintro ⟨x, hx⟩
  have h := hx (statConstraint c stat)
    (List.mem_append.mpr (Or.inr (List.mem_map.mpr ⟨stat, hmem, rfl⟩)))
  have hlhs : lhsVal x (statConstraint c stat).coeffs = 0 := by
    apply List.sum_eq_zero
    intro v hv
    simp only [statConstraint, List.map_map, List.mem_map, Function.comp_apply] at hv
    obtain ⟨l, _, rfl⟩ := hv
    rw [hzero l.1 l.2, zero_mul]
  rw [satisfies, hlhs] at h
  have : (999 : Int) - c.initialStats stat ≤ 0 := h
  omega

/-- C5 amended witness: the zero-gain catalogue is a concrete instance whose
built model admits no feasible assignment. -/
theorem unreachable_stat_gives_infeasible_model_witness :
    ¬ ∃ x, feasible (buildModel zeroGainCat) x :=
  unreachable_stat_gives_infeasible_model zeroGainCat "stat" (by decide)
    (fun r w => by cases w <;> rfl) (by decide)

/-- C6 counterexample: feed the reporter an Optimal solver result whose
all-zero counts leave the recomputed final value of the stat at 997 < 999;
the run still ends in a full normal report (objective 0) — no recomputation
is performed and no SolutionInvariantViolation exists anywhere in the
code. -/
theorem reporter_accepts_short_solution :
    recomputedFinal tinyCat (fun _ => 0) "stat" = 997 ∧
      runAfterSolve tinyCat 23 (SolverResult.optimal (fun _ => 0)) =
        Outcome.reported 0 (trainingProgramme tinyCat (fun _ => 0)) :=
  ⟨by decide, by decide⟩

/-- C6 amended: the reporter performs no post-solve validation of the
returned counts — any Optimal result whose objective passes the upper-bound
assert is reported as-is, and the reported session total is exactly the sum
of all counts of the solution over the decision variables. -/
theorem reporter_total_is_sum_of_counts (c : Catalogue) (ub : Nat)
    (x : String × Nat → Nat) (hub : 0 < ub)
    (hle : objectiveVal (buildModel c) x ≤ ub) :
    runAfterSolve c ub (SolverResult.optimal x) =
      Outcome.reported (((weekLabels c).map x).sum) (trainingProgramme c x) := by
  simp [runAfterSolve, hub, hle]
  rfl

/-- C6 amended witness: the all-zero solution on the tiny catalogue is
reported with session total 0. -/
theorem reporter_total_is_sum_of_counts_witness :
    runAfterSolve tinyCat 23 (SolverResult.optimal (fun _ => 0)) =
      Outcome.reported (((weekLabels tinyCat).map (fun _ => 0)).sum)
        (trainingProgramme tinyCat (fun _ => 0)) :=
  reporter_total_is_sum_of_counts tinyCat 23 (fun _ => 0) (by decide) (by decide)

/-- C7 counterexample: with the script's upper bound 23, a non-optimal
solver status makes the run print the no-optimal message and then die on the
unset `self.objective` attribute, ending in the caught-AttributeError
handler — there is no structured failure report. -/
theorem infeasible_status_ends_in_attribute_error :
    runAfterSolve tinyCat 23 SolverResult.noOptimal =
      Outcome.caughtAttributeError
        ["\nNo optimal solutions found.", "Encountered an attribute error"] := rfl

/-- C7 amended: whatever the catalogue and upper bound, a solver status
other than Optimal prints the message of line 149 and then `print_output`
raises AttributeError on the never-assigned `self.objective`, which is
caught on line 159 and printed as the generic attribute-error message; no
FailureReport value exists, though the process does not crash. -/
theorem no_optimal_status_behaviour (c : Catalogue) (ub : Nat) :
    runAfterSolve c ub SolverResult.noOptimal =
      Outcome.caughtAttributeError
        ["\nNo optimal solutions found.", "Encountered an attribute error"] := rfl

/-- C8 counterexample: the three-week schedule on the tiny catalogue has
objective 3; with supplied upper bound 1 the assert on line 146 fails and
the run ends in an uncaught AssertionError — the mismatch is a crash, not a
flag. -/
theorem upper_bound_mismatch_is_a_crash :
    runAfterSolve tinyCat 1 (SolverResult.optimal threeWeekSchedule) =
      Outcome.assertionError := by decide

/-- C8 amended: with a positive upper bound and an Optimal result, an
objective within the bound is reported normally, while an objective above
the bound aborts the run with an uncaught AssertionError; with the bound
left at 0 the comparison is skipped, but `self.objective` is then never
assigned, so the run ends in the caught-AttributeError handler instead of a
report (no crash). -/
theorem upper_bound_check_behaviour (c : Catalogue) (ub : Nat)
    (x : String × Nat → Nat) (hub : 0 < ub) :
    (objectiveVal (buildModel c) x ≤ ub →
      runAfterSolve c ub (SolverResult.optimal x) =
        Outcome.reported (objectiveVal (buildModel c) x) (trainingProgramme c x)) ∧
    (ub < objectiveVal (buildModel c) x →
      runAfterSolve c ub (SolverResult.optimal x) = Outcome.assertionError) ∧
    runAfterSolve c 0 (SolverResult.optimal x) =
      Outcome.caughtAttributeError ["Encountered an attribute error"] := by
  refine ⟨fun hle => ?_, fun hgt => ?_, rfl⟩
  · simp [runAfterSolve, hub, hle]
  · simp [runAfterSolve, hub, Nat.not_le.mpr hgt]

/-- C8 amended witness: on the tiny catalogue with bound 1, the three-week
schedule triggers the AssertionError branch. -/
theorem upper_bound_check_behaviour_witness :
    runAfterSolve tinyCat 1 (SolverResult.optimal threeWeekSchedule) =
      Outcome.assertionError :=
  (upper_bound_check_behaviour tinyCat 1 threeWeekSchedule (by decide)).2.1 (by decide)

/-- C9: model building is deterministic — any two catalogues presenting the
same rank list, stat list, table sizes, gains and starting values (in
particular, the same catalogue built twice) produce structurally identical
models: the same decision-variable label sequence and the same constraint
list in the same order. -/
theorem build_model_deterministic (c1 c2 : Catalogue)
    (hr : c1.rankNames = c2.rankNames)
    (hs : c1.statNames = c2.statNames)
    (hw : ∀ r, weeksInRank c1 r = weeksInRank c2 r)
    (hg : ∀ r w s, statGainAt c1 r w s = statGainAt c2 r w s)
    (hi : ∀ s, c1.initialStats s = c2.initialStats s) :
    (buildModel c1).varLabels = (buildModel c2).varLabels ∧
      (buildModel c1).constraints = (buildModel c2).constraints := by
  have hwfun : weeksInRank c1 = weeksInRank c2 := funext hw
  have hlab : weekLabels c1 = weekLabels c2 := by
    rw [weekLabels, weekLabels, hr, hwfun]
  have hrank : rankConstraint c1 = rankConstraint c2 := by
    funext rank
    rw [rankConstraint, rankConstraint, hlab]
  have hstat : statConstraint c1 = statConstraint c2 := by
    funext stat
    rw [statConstraint, statConstraint, hlab, hi]
    have : (fun l : String × Nat => (l, statGainAt c1 l.1 l.2 stat)) =
        fun l : String × Nat => (l, statGainAt c2 l.1 l.2 stat) := by
      funext l
      rw [hg]
    rw [this]
  constructor
  · exact hlab
  · rw [buildModel, buildModel]
    simp only
    rw [hr, hs, hrank, hstat]

/-- C9 witness: building the tiny catalogue twice yields the same variable
labels and constraints. -/
theorem build_model_deterministic_witness :
    (buildModel tinyCat).varLabels = (buildModel tinyCat).varLabels ∧
      (buildModel tinyCat).constraints = (buildModel tinyCat).constraints :=
  build_model_deterministic tinyCat tinyCat rfl rfl (fun _ => rfl)
    (fun _ _ _ => rfl) (fun _ => rfl)

/-- C10: whenever the solver status is Optimal but `upper_bound` was left at
its default of 0, the branch on line 144 never assigns `self.objective`, so
`print_output` raises AttributeError on line 81, which is caught on line 159
and replaced by the literal handler message — the outcome is never a report
of the optimal total and schedule. -/
theorem default_upper_bound_suppresses_report (c : Catalogue)
    (x : String × Nat → Nat) :
    runAfterSolve c 0 (SolverResult.optimal x) =
      Outcome.caughtAttributeError ["Encountered an attribute error"] := rfl

end MonsterRancher
